import Mathlib

/-!
Verification of the rotary-phone pulse decoder (`src/code.py`).

The program is a single CircuitPython polling loop that reads three digital
input lines (off-hook, dial-active, digit-pulse), mirrors the hook value to a
status LED after every hook sample, counts pulse falling edges while the dial
is active, and on dial release sends one USB HID keystroke with raw keycode
`digitCount + 0x1d` (`kbd.send(numberToReturn + 0x1d)` at line 152).

We embed the loop as a small-step machine.  The environment supplies each
sensor line as a stream of read results (a function from the number of reads
performed so far on that line to the Boolean value returned).  Each step of
the machine performs at most one sensor read, exactly mirroring the program
order of `code.py`; `time.sleep` and `print` calls have no modelled effect.
The status LED is modelled as the list of values written to it (most recent
first) and the keystroke sink as the list of keycodes passed to `kbd.send`.
-/

namespace RotaryPhone

/-- Program locations of the main loop of `code.py`, one per atomic
sensor-read / branch point:

* `idle0`     — line 122-123: `offHook = hookState()` then the extra
  `oStatusLed.value = offHook`;
* `idleW`     — line 125: `while (not offHook)` check, body line 126;
* `waitStart` — lines 129-130: `digitCount = 0; dialActive = oDialActive.value`;
* `waitW`     — line 131: `while (not dialActive)` check;
* `waitBody1` — line 132: `dialActive = oDialActive.value`;
* `waitBody2` — lines 134-135: `offHook = hookState()`, `if not offHook: break`
  (the break falls through to the dialing `while` header);
* `dialTop`   — line 138: `while (dialActive)` check (false exits to the top
  of the outer loop);
* `dialPulse` — lines 139-142: `digitPulse = oDigitPulse.value`, and on a low
  reading `digitCount += 1`;
* `pulseWait` — lines 143-144: `while (not digitPulse): digitPulse = oDigitPulse.value`;
* `dialAfterPulse` — lines 146-153: `dialActive = oDialActive.value`, and when
  it reads false, `kbd.send(digitCount + 0x1d)`;
* `dialHook`  — lines 155-156: `offHook = hookState()`, `if not offHook: break`. -/
inductive Loc where
  | idle0
  | idleW
  | waitStart
  | waitW
  | waitBody1
  | waitBody2
  | dialTop
  | dialPulse
  | pulseWait
  | dialAfterPulse
  | dialHook
deriving DecidableEq, Repr

/-- The three digital input lines, each as a stream of read results: reading a
line for the `k`-th time (0-based) returns the stream at `k`. -/
structure Env where
  hook : Nat → Bool
  dial : Nat → Bool
  pulse : Nat → Bool

/-- Machine state: the program counter, the Python variables `offHook`,
`dialActive`, `digitPulse`, `digitCount`, the per-line read counters, the
history of status-LED writes (most recent first), and the list of keycodes
passed to `kbd.send` in order of emission. -/
structure State where
  pc : Loc
  offHook : Bool
  dialActive : Bool
  digitPulse : Bool
  digitCount : Nat
  hIdx : Nat
  dIdx : Nat
  pIdx : Nat
  led : List Bool
  sent : List Nat
deriving DecidableEq, Repr

/-- One atomic step of the decoder, following `code.py` line by line.  The
helper `hookState()` (lines 109-113) reads the hook line, writes the value to
the status LED and returns it; every call site stores the result in
`offHook`. -/
def step (e : Env) (s : State) : State :=
  match s.pc with
  | .idle0 =>
      let v := e.hook s.hIdx
      { s with offHook := v, hIdx := s.hIdx + 1, led := v :: v :: s.led,
               pc := .idleW }
  | .idleW =>
      if s.offHook then { s with pc := .waitStart }
      else
        let v := e.hook s.hIdx
        { s with offHook := v, hIdx := s.hIdx + 1, led := v :: s.led,
                 pc := .idleW }
  | .waitStart =>
      let v := e.dial s.dIdx
      { s with digitCount := 0, dialActive := v, dIdx := s.dIdx + 1,
               pc := .waitW }
  | .waitW =>
      if s.dialActive then { s with pc := .dialTop }
      else { s with pc := .waitBody1 }
  | .waitBody1 =>
      let v := e.dial s.dIdx
      { s with dialActive := v, dIdx := s.dIdx + 1, pc := .waitBody2 }
  | .waitBody2 =>
      let v := e.hook s.hIdx
      { s with offHook := v, hIdx := s.hIdx + 1, led := v :: s.led,
               pc := if v then .waitW else .dialTop }
  | .dialTop =>
      if s.dialActive then { s with pc := .dialPulse }
      else { s with pc := .idle0 }
  | .dialPulse =>
      let v := e.pulse s.pIdx
      if v then
        { s with digitPulse := v, pIdx := s.pIdx + 1, pc := .dialAfterPulse }
      else
        { s with digitPulse := v, pIdx := s.pIdx + 1,
                 digitCount := s.digitCount + 1, pc := .pulseWait }
  | .pulseWait =>
      let v := e.pulse s.pIdx
      if v then
        { s with digitPulse := v, pIdx := s.pIdx + 1, pc := .dialAfterPulse }
      else
        { s with digitPulse := v, pIdx := s.pIdx + 1, pc := .pulseWait }
  | .dialAfterPulse =>
      let v := e.dial s.dIdx
      if v then
        { s with dialActive := v, dIdx := s.dIdx + 1, pc := .dialHook }
      else
        { s with dialActive := v, dIdx := s.dIdx + 1,
                 sent := s.sent ++ [s.digitCount + 0x1d], pc := .dialHook }
  | .dialHook =>
      let v := e.hook s.hIdx
      { s with offHook := v, hIdx := s.hIdx + 1, led := v :: s.led,
               pc := if v then .dialTop else .idle0 }

/-- Initial state: all Python variables start at 0 (lines 72-76), no reads
performed, nothing written to the LED, nothing sent. -/
def init : State :=
  { pc := .idle0, offHook := false, dialActive := false, digitPulse := false,
    digitCount := 0, hIdx := 0, dIdx := 0, pIdx := 0, led := [], sent := [] }

/-- Run the decoder for `n` atomic steps from the initial state. -/
def run (e : Env) (n : Nat) : State :=
  (step e)^[n] init

/-- USB HID keycode of a decimal digit (from `adafruit_hid.keycode`:
`ONE = 0x1e` … `NINE = 0x26`, `ZERO = 0x27`): digit 1..9 maps to
`0x1d + d`, digit 0 is the tenth code `0x27`. -/
def hidDigitKeycode (d : Nat) : Nat :=
  if d = 0 then 0x27 else 0x1d + d

/-- Canonical dialing trace with `n` pulses: the handset stays off-hook, the
dial reads active from the first poll and stays active until `n` falling
edges have been observed, and the pulse line alternates low then high once
per dial position passed. -/
def envDial (n : Nat) : Env :=
  { hook := fun _ => true, dial := fun k => decide (k < n),
    pulse := fun k => decide (k % 2 = 1) }

/-- Trace with two back-to-back rotations in one off-hook session: 5 pulses,
dial release (6th dial read, index 5), then 7 more pulses and a second
release (14th dial read, index 13). -/
def envTwoRotations : Env :=
  { hook := fun _ => true, dial := fun k => decide (k < 13 ∧ k ≠ 5),
    pulse := fun k => decide (k % 2 = 1) }

/-- Trace in which the handset goes on-hook during the waiting-for-dial loop
in the very iteration whose dial poll reads active: the hook reads off-hook
once (the initial sample) and on-hook ever after, the dial line reads
inactive on the first poll and active on the second, and the pulse line
stays high. -/
def envHangupRace : Env :=
  { hook := fun k => decide (k = 0), dial := fun k => decide (k = 1),
    pulse := fun _ => true }

/-- Spurious activation trace: off-hook throughout, the dial-active line
reads active exactly once and then inactive, and the pulse line stays high
so no pulse is ever detected. -/
def envSpurious : Env :=
  { hook := fun _ => true, dial := fun k => decide (k = 0),
    pulse := fun _ => true }

/-- Auxiliary environment for single-step theorems: hook line high, dial
line low, pulse line high. -/
def envHookHigh : Env :=
  { hook := fun _ => true, dial := fun _ => false, pulse := fun _ => true }

/-- Auxiliary environment whose pulse line is stuck low forever; hook and
dial lines read high. -/
def envStuckPulse : Env :=
  { hook := fun _ => true, dial := fun _ => true, pulse := fun _ => false }

/-- Auxiliary environment with every line reading low. -/
def envAllLow : Env :=
  { hook := fun _ => false, dial := fun _ => false, pulse := fun _ => false }

/-- Concrete state at the pulse-sampling point of the dialing loop. -/
def sDialPulse : State :=
  { init with pc := .dialPulse }

/-- Concrete state inside the pulse busy-wait loop. -/
def sPulseWait : State :=
  { init with pc := .pulseWait }

/-- Concrete state at the dial re-check of the dialing loop, with no pulse
counted. -/
def sDialAfterPulse : State :=
  { init with pc := .dialAfterPulse }

/-- Concrete state at the dial re-check of the dialing loop with a pulse
count of 11, above the valid 1..10 range. -/
def sDialOverflow : State :=
  { init with pc := .dialAfterPulse, digitCount := 11 }

/-- Concrete state at the hook check of the waiting-for-dial loop. -/
def sWaitBody2 : State :=
  { init with pc := .waitBody2 }

/-- A step taken at `pulseWait` while the pulse line reads low changes
nothing but the pulse read counter and the `digitPulse` variable: no other
line is read, nothing is written, and control stays at `pulseWait`. -/
theorem step_pulseWait_low (e : Env) (s : State) (hpc : s.pc = .pulseWait)
    (hp : e.pulse s.pIdx = false) :
    step e s = { s with pIdx := s.pIdx + 1, digitPulse := false } := by
  cases s with
  | mk pc offHook dialActive digitPulse digitCount hIdx dIdx pIdx led sent =>
    subst hpc
    simp [step, hp]

/-- States at `pulseWait` on an environment whose pulse line stays low from
the current pulse read counter onward remain at `pulseWait` forever, with a
nondecreasing pulse read counter and an unchanged emission list. -/
theorem pulseWait_stuck_invariant (e : Env) (s : State) (hpc : s.pc = .pulseWait)
    (hstuck : ∀ k, s.pIdx ≤ k → e.pulse k = false) :
    ∀ m, ((step e)^[m] s).pc = .pulseWait ∧
      s.pIdx ≤ ((step e)^[m] s).pIdx ∧
      ((step e)^[m] s).sent = s.sent := by
  intro m
  induction m with
  | zero => exact ⟨hpc, le_rfl, rfl⟩
  | succ m ih =>
      obtain ⟨hpc', hle', hsent'⟩ := ih
      rw [Function.iterate_succ_apply']
      rw [step_pulseWait_low e _ hpc' (hstuck _ hle')]
      exact ⟨hpc', by simpa using Nat.le_succ_of_le hle', hsent'⟩

/-!  Theorems about the decoder. -/

/-- C1: for every pulse count `n` in 1..10, a session that stays off-hook,
observes exactly `n` pulses while the dial is active and then sees the dial
go inactive sends exactly one keystroke, whose keycode is the HID digit
keycode of `n mod 10` (counts 1..9 give digits 1..9, count 10 gives
digit 0). -/
theorem C1_pulse_count_emits_digit_mod_ten (n : Nat) (h1 : 1 ≤ n) (h10 : n ≤ 10) :
    (run (envDial n) 60).sent = [hidDigitKeycode (n % 10)] := by
  interval_cases n <;> decide

theorem C1_pulse_count_emits_digit_mod_ten_witness :
    (run (envDial 10) 60).sent = [hidDigitKeycode (10 % 10)] :=
  C1_pulse_count_emits_digit_mod_ten 10 (by decide) (by decide)

/-- C4: two sequential dial rotations (5 pulses, then 7) inside one off-hook
session each cause exactly one `kbd.send` call, in order, and `digitCount`
is reset to 0 (line 129) after the first emission before the second rotation
is counted: after 33 steps the machine has just re-entered the wait loop
with `digitCount = 0` and one keycode sent, and after 100 steps exactly the
two keycodes for digits 5 and 7 have been sent. -/
theorem C4_sequential_rotations_one_keystroke_each :
    (run envTwoRotations 33).digitCount = 0 ∧
    (run envTwoRotations 33).sent = [hidDigitKeycode 5] ∧
    (run envTwoRotations 100).sent = [hidDigitKeycode 5, hidDigitKeycode 7] := by
  decide

/-- C2: when the dial-active line reads false with `digitCount = 0` (a
spurious activation with no pulse detected), the keycode passed to
`kbd.send` is `0 + 0x1d = 0x1d`, and no digit keycode (`0x1e`..`0x27`,
i.e. `hidDigitKeycode d` for `d ≤ 9`) equals `0x1d`: the program emits no
digit keystroke on such an event (it does emit the non-digit keycode
`0x1d`, the letter z — emission itself is not suppressed). -/
theorem C2_spurious_zero_pulse_emits_no_digit_keystroke (e : Env) (s : State)
    (hpc : s.pc = .dialAfterPulse) (hd : e.dial s.dIdx = false)
    (hc : s.digitCount = 0) :
    (step e s).sent = s.sent ++ [0x1d] ∧
    ∀ d, d < 10 → hidDigitKeycode d ≠ 0x1d := by
  constructor
  · cases s with
    | mk pc offHook dialActive digitPulse digitCount hIdx dIdx pIdx led sent =>
      subst hpc
      simp_all [step]
  · decide

theorem C2_spurious_zero_pulse_emits_no_digit_keystroke_witness :
    (step envHookHigh sDialAfterPulse).sent = sDialAfterPulse.sent ++ [0x1d] :=
  (C2_spurious_zero_pulse_emits_no_digit_keystroke envHookHigh sDialAfterPulse
    rfl rfl rfl).1

/-- C5: in the dialing loop, a pulse sample reading false at the sampling
point (`dialPulse`, a falling edge) increments `digitCount` by exactly one
and enters the busy-wait `pulseWait`; a sample reading true leaves the count
unchanged and proceeds; inside `pulseWait` the count is never changed and
control leaves only when the pulse line reads true again. -/
theorem C5_falling_edge_increments_once_then_blocks (e : Env) (s : State) :
    (s.pc = .dialPulse → e.pulse s.pIdx = false →
      (step e s).digitCount = s.digitCount + 1 ∧ (step e s).pc = .pulseWait) ∧
    (s.pc = .dialPulse → e.pulse s.pIdx = true →
      (step e s).digitCount = s.digitCount ∧ (step e s).pc = .dialAfterPulse) ∧
    (s.pc = .pulseWait → e.pulse s.pIdx = false →
      (step e s).digitCount = s.digitCount ∧ (step e s).pc = .pulseWait) ∧
    (s.pc = .pulseWait → e.pulse s.pIdx = true →
      (step e s).digitCount = s.digitCount ∧ (step e s).pc = .dialAfterPulse) := by
  refine ⟨fun hpc hv => ?_, fun hpc hv => ?_, fun hpc hv => ?_, fun hpc hv => ?_⟩ <;>
    cases s <;> subst hpc <;> simp [step, hv]

theorem C5_falling_edge_increments_once_then_blocks_witness :
    (step envStuckPulse sDialPulse).digitCount = 1 ∧
    (step envStuckPulse sDialPulse).pc = .pulseWait ∧
    (step envHookHigh sPulseWait).pc = .dialAfterPulse :=
  ⟨((C5_falling_edge_increments_once_then_blocks envStuckPulse sDialPulse).1
      rfl rfl).1,
   ((C5_falling_edge_increments_once_then_blocks envStuckPulse sDialPulse).1
      rfl rfl).2,
   ((C5_falling_edge_increments_once_then_blocks envHookHigh sPulseWait).2.2.2
      rfl rfl).2⟩

/-- C6: whenever a step samples the hook line (the hook read counter
increments), the most recent status-LED write after that step is exactly the
value just read from the hook line — in every state-machine phase, because
`hookState()` (lines 109-113) writes the LED on every call. -/
theorem C6_status_led_mirrors_every_hook_sample (e : Env) (s : State)
    (h : (step e s).hIdx = s.hIdx + 1) :
    (step e s).led.head? = some (e.hook s.hIdx) := by
  cases hpc : s.pc
  case idle0 => simp [step, hpc]
  case idleW =>
    cases hoff : s.offHook
    · simp [step, hpc, hoff]
    · simp [step, hpc, hoff] at h
  case waitStart => simp [step, hpc] at h
  case waitW =>
    cases hda : s.dialActive <;> simp [step, hpc, hda] at h
  case waitBody1 => simp [step, hpc] at h
  case waitBody2 => simp [step, hpc]
  case dialTop =>
    cases hda : s.dialActive <;> simp [step, hpc, hda] at h
  case dialPulse =>
    cases hv : e.pulse s.pIdx <;> simp [step, hpc, hv] at h
  case pulseWait =>
    cases hv : e.pulse s.pIdx <;> simp [step, hpc, hv] at h
  case dialAfterPulse =>
    cases hv : e.dial s.dIdx <;> simp [step, hpc, hv] at h
  case dialHook => simp [step, hpc]

theorem C6_status_led_mirrors_every_hook_sample_witness :
    (step envHookHigh init).led.head? = some (envHookHigh.hook init.hIdx) :=
  C6_status_led_mirrors_every_hook_sample envHookHigh init rfl

/-- C8: if at the pulse-sampling point of the dialing loop the pulse line
reads false and never returns true, the busy-wait never terminates: after
every positive number of steps the machine is still at `pulseWait`, and no
keystroke is ever emitted from then on.  There is no timeout. -/
theorem C8_stuck_pulse_line_hangs_dialing_forever (e : Env) (s : State)
    (hpc : s.pc = .dialPulse)
    (hstuck : ∀ k, s.pIdx ≤ k → e.pulse k = false) :
    ∀ m, 1 ≤ m → ((step e)^[m] s).pc = .pulseWait ∧
      ((step e)^[m] s).sent = s.sent := by
  intro m hm
  obtain ⟨m', rfl⟩ : ∃ m', m = m' + 1 := ⟨m - 1, by omega⟩
  rw [Function.iterate_succ_apply]
  have h1 : step e s = { s with digitPulse := false, pIdx := s.pIdx + 1, digitCount := s.digitCount + 1, pc := .pulseWait } := by
    cases s with
    | mk pc offHook dialActive digitPulse digitCount hIdx dIdx pIdx led sent =>
      subst hpc
      simp [step, hstuck _ le_rfl]
  have h2 := pulseWait_stuck_invariant e (step e s) (by rw [h1])
    (fun k hk => hstuck k (by rw [h1] at hk; simp at hk; omega)) m'
  refine ⟨h2.1, h2.2.2.trans ?_⟩
  rw [h1]

theorem C8_stuck_pulse_line_hangs_dialing_forever_witness :
    ((step envStuckPulse)^[8] sDialPulse).pc = .pulseWait ∧
    ((step envStuckPulse)^[8] sDialPulse).sent = sDialPulse.sent :=
  C8_stuck_pulse_line_hangs_dialing_forever envStuckPulse sDialPulse rfl
    (fun _ _ => rfl) 8 (by decide)

/-- C9: the keycode passed to `kbd.send` is always the raw value
`digitCount + 0x1d`, with no modular reduction and no range check: for
`digitCount = 0` it is `0x1d` (the letter z, below the digit range
`0x1e`..`0x27`), and for any `digitCount > 10` it lies above that range,
violating the keystroke-sink contract of a digit 0..9. -/
theorem C9_raw_keycode_no_reduction_no_range_check (e : Env) (s : State)
    (hpc : s.pc = .dialAfterPulse) (hd : e.dial s.dIdx = false) :
    (step e s).sent = s.sent ++ [s.digitCount + 0x1d] ∧
    (s.digitCount = 0 → s.digitCount + 0x1d = 0x1d ∧ s.digitCount + 0x1d < 0x1e) ∧
    (10 < s.digitCount → 0x27 < s.digitCount + 0x1d) := by
  refine ⟨?_, fun h0 => by omega, fun h10 => by omega⟩
  cases s with
  | mk pc offHook dialActive digitPulse digitCount hIdx dIdx pIdx led sent =>
    subst hpc
    simp [step, hd]

theorem C9_raw_keycode_no_reduction_no_range_check_witness :
    (step envHookHigh sDialOverflow).sent = sDialOverflow.sent ++ [11 + 0x1d] ∧
    0x27 < 11 + 0x1d :=
  ⟨(C9_raw_keycode_no_reduction_no_range_check envHookHigh sDialOverflow
      rfl rfl).1,
   (C9_raw_keycode_no_reduction_no_range_check envHookHigh sDialOverflow
      rfl rfl).2.2 (by decide)⟩

/-- C10: while the pulse line reads false inside the busy-wait, a step
samples only the pulse line: the resulting state differs from the previous
one exactly in the pulse read counter (and the redundant `digitPulse := false`
write), so the hook and dial-active lines are not read, the status LED is
not written, nothing is sent, and control stays in the busy-wait — a
hook-based abort can take effect only after the pulse line returns high. -/
theorem C10_busy_wait_samples_only_pulse_line (e : Env) (s : State)
    (hpc : s.pc = .pulseWait) (hp : e.pulse s.pIdx = false) :
    step e s = { s with pIdx := s.pIdx + 1, digitPulse := false } :=
  step_pulseWait_low e s hpc hp

theorem C10_busy_wait_samples_only_pulse_line_witness :
    step envStuckPulse sPulseWait =
      { sPulseWait with pIdx := 1, digitPulse := false } :=
  C10_busy_wait_samples_only_pulse_line envStuckPulse sPulseWait rfl rfl

/-- C3 counterexample: on `envHangupRace` the hook read of the
waiting-for-dial loop (at `waitBody2`, after 5 steps) returns on-hook — the
handset goes on-hook during the WaitingForDial phase — yet because the dial
poll of that same iteration (`waitBody1`) read active, the `break` at line
135 falls into the dialing `while` header with `dialActive` still true, and
the run goes on to emit a keystroke (keycode `0x1d`) at step 9.  So a
keystroke is emitted for an attempt in which the hook went on-hook during
WaitingForDial, refuting the claim as stated. -/
theorem C3_counterexample_hangup_race_still_emits :
    (run envHangupRace 5).pc = .waitBody2 ∧
    envHangupRace.hook (run envHangupRace 5).hIdx = false ∧
    (run envHangupRace 6).offHook = false ∧
    (run envHangupRace 6).pc = .dialTop ∧
    (run envHangupRace 9).sent = [0x1d] := by
  decide

/-- C3 amended: a hook sample reading on-hook at the dialing loop's hook
check (`dialHook`) aborts at once to Idle with no further emission; a hook
sample reading on-hook at the waiting loop's hook check (`waitBody2`) aborts
to Idle with no emission provided the dial poll of that iteration read
inactive — when that poll read active, the break instead falls into the
dialing loop and a keystroke can still be emitted. -/
theorem C3_amended_onhook_aborts_without_emission (e : Env) (s : State) :
    (s.pc = .waitBody2 → e.hook s.hIdx = false → s.dialActive = false →
      ((step e)^[2] s).pc = .idle0 ∧ ((step e)^[2] s).sent = s.sent) ∧
    (s.pc = .dialHook → e.hook s.hIdx = false →
      (step e s).pc = .idle0 ∧ (step e s).sent = s.sent) := by
  constructor
  · intro hpc hh hda
    simp only [Function.iterate_succ, Function.iterate_zero, Function.comp_apply,
      id_eq]
    have h1 : step e s = { s with offHook := false, hIdx := s.hIdx + 1, led := false :: s.led, pc := .dialTop } := by
      cases s with
      | mk pc offHook dialActive digitPulse digitCount hIdx dIdx pIdx led sent =>
        subst hpc
        simp [step, hh]
    rw [h1]
    simp [step, hda]
  · intro hpc hh
    cases s with
    | mk pc offHook dialActive digitPulse digitCount hIdx dIdx pIdx led sent =>
      subst hpc
      simp [step, hh]

theorem C3_amended_onhook_aborts_without_emission_witness :
    ((step envAllLow)^[2] sWaitBody2).pc = .idle0 ∧
    ((step envAllLow)^[2] sWaitBody2).sent = sWaitBody2.sent :=
  (C3_amended_onhook_aborts_without_emission envAllLow sWaitBody2).1 rfl rfl rfl

/-- C7 counterexample: a zero-pulse dial-active toggle (`envSpurious`) makes
the program send raw keycode `0x1d` (`0 + 0x1d`, the letter z), while a
genuine 10-pulse dial of digit 0 sends `hidDigitKeycode 0 = 0x27` — the two
emissions are distinguishable, and the zero-pulse emission is not digit 0,
refuting the claim as stated. -/
theorem C7_counterexample_zero_pulse_distinguishable :
    (run envSpurious 7).sent = [0x1d] ∧
    (run (envDial 10) 60).sent = [hidDigitKeycode 0] ∧
    (0x1d : Nat) ≠ hidDigitKeycode 0 := by
  decide

/-- C7 amended: on a zero-pulse dial-active toggle the program sends the raw
keycode `0x1d` (= `0 + 0x1d`, the letter z), which differs from
`hidDigitKeycode 0 = 0x27`, the keycode a genuine 10-pulse dial of "0"
produces — not digit 0, and distinguishable from a 10-pulse dial. -/
theorem C7_amended_zero_pulse_sends_keycode_z (e : Env) (s : State)
    (hpc : s.pc = .dialAfterPulse) (hd : e.dial s.dIdx = false)
    (hc : s.digitCount = 0) :
    (step e s).sent = s.sent ++ [0x1d] ∧ (0x1d : Nat) ≠ hidDigitKeycode 0 := by
  constructor
  · cases s with
    | mk pc offHook dialActive digitPulse digitCount hIdx dIdx pIdx led sent =>
      subst hpc
      simp_all [step]
  · decide

theorem C7_amended_zero_pulse_sends_keycode_z_witness :
    (step envAllLow sDialAfterPulse).sent = sDialAfterPulse.sent ++ [0x1d] ∧
    (0x1d : Nat) ≠ hidDigitKeycode 0 :=
  C7_amended_zero_pulse_sends_keycode_z envAllLow sDialAfterPulse rfl rfl rfl

end RotaryPhone
